import Mathlib

/-!
Shallow embedding of the Authelia storage CLI command layer
(internal/commands/storage_run.go) and proofs about its behaviour.

External collaborators (the storage backend, the terminal, the filesystem,
the uuid library) are modelled as explicit oracle inputs: a backend call
that can fail is an `Option String` (the error it would return) or an
`Except String` value, and the records a backend query would return are
passed in as lists.
-/

namespace Authelia

/-- A UUID as far as this layer observes it: its version nibble and an
abstract payload distinguishing values (the uuid library is an external
collaborator; only `Version()` is inspected by this code). -/
structure UUID where
  version : Nat
  val : Nat
deriving DecidableEq, Repr

/-- The zero value of the uuid type in Go (the nil UUID, version 0). -/
def uuidNil : UUID := ⟨0, 0⟩

/-- The model.UserOpaqueIdentifier record: identifier, service, sectorID, username. -/
structure UserOpaqueIdentifier where
  service : String
  sectorID : String
  username : String
  identifier : UUID
deriving DecidableEq, Repr

/-- Modelled from the spec: the OpenID Connect service identifier, the
default service for a single identifier add (the constant
identifierServiceOpenIDConnect is declared outside the provided source). -/
def identifierServiceOpenIDConnect : String := "openid_connect"

/-- Modelled from the spec: the fixed known set of valid service
identifiers (the variable validIdentifierServices is declared outside the
provided source; per the spec it is a fixed set containing the OpenID
Connect service). -/
def validIdentifierServices : List String := [identifierServiceOpenIDConnect]

/-- Modelled from the spec: utils.IsStringSliceContainsAll, true when every
needle occurs in the haystack. -/
def IsStringSliceContainsAll (needles haystack : List String) : Bool :=
  needles.all fun s => haystack.contains s

/-- Modelled from the spec: utils.IsStringInSlice, plain membership. -/
def IsStringInSlice (s : String) (l : List String) : Bool :=
  l.contains s

/-- Modelled from the spec: containsIdentifier checks membership of the
natural key (service, sector, username) in the loaded identifier set,
ignoring the identifier value. -/
def containsIdentifier (identifier : UserOpaqueIdentifier)
    (identifiers : List UserOpaqueIdentifier) : Bool :=
  identifiers.any fun e =>
    e.service == identifier.service && e.sectorID == identifier.sectorID &&
      e.username == identifier.username

/-- The natural key of an identifier record. -/
def naturalKey (i : UserOpaqueIdentifier) : String × String × String :=
  (i.service, i.sectorID, i.username)

/-- Membership of a bare natural key in an identifier set, with the same
comparison containsIdentifier performs. -/
def keyPresent (k : String × String × String)
    (identifiers : List UserOpaqueIdentifier) : Bool :=
  identifiers.any fun e =>
    e.service == k.1 && e.sectorID == k.2.1 && e.username == k.2.2

/-- Mutable state threaded through the generation loop of
StorageUserIdentifiersGenerateRunE: the added and duplicates counters and
the identifiers saved to the backend so far, in save order. -/
structure GenState where
  added : Nat
  duplicates : Nat
  saved : List UserOpaqueIdentifier
deriving Repr

/-- One iteration of the innermost loop body of
StorageUserIdentifiersGenerateRunE: build the record for the tuple, skip
it as a duplicate when its natural key is already in the pre-loaded set,
otherwise generate a fresh UUID (uuid.NewRandom, an oracle indexed by the
number of identifiers generated so far, which can fail) and save the
record (SaveUserOpaqueIdentifier, whose error outcome is the save oracle
at the same index). Either failure aborts the whole loop, returning the
wrapped error together with the state reached so far, so earlier saves
remain. -/
def genStep (existing : List UserOpaqueIdentifier)
    (gen : Nat → Except String UUID) (save : Nat → Option String)
    (service sector username : String) (st : GenState) :
    Except (String × GenState) GenState :=
  let identifier : UserOpaqueIdentifier :=
    { service := service, sectorID := sector, username := username,
      identifier := uuidNil }
  if containsIdentifier identifier existing then
    .ok { st with duplicates := st.duplicates + 1 }
  else
    match gen st.added with
    | .error e => .error ("failed to generate a uuid: " ++ e, st)
    | .ok u =>
      match save st.added with
      | some e => .error ("failed to save identifier: " ++ e, st)
      | none =>
        .ok ⟨st.added + 1, st.duplicates,
          st.saved ++ [{ identifier with identifier := u }]⟩

/-- The value an always-succeeding generator oracle yields at index n. -/
def extractUUID (gen : Nat → Except String UUID) (n : Nat) : UUID :=
  match gen n with
  | .ok u => u
  | .error _ => uuidNil

/-- The error-free projection of the loop body, used to analyse the loop
under the hypothesis that every generation and save succeeds. -/
def genStepP (existing : List UserOpaqueIdentifier) (gen : Nat → UUID)
    (service sector username : String) (st : GenState) : GenState :=
  let identifier : UserOpaqueIdentifier :=
    { service := service, sectorID := sector, username := username,
      identifier := uuidNil }
  if containsIdentifier identifier existing then
    { st with duplicates := st.duplicates + 1 }
  else
    { added := st.added + 1, duplicates := st.duplicates,
      saved := st.saved ++ [{ identifier with identifier := gen st.added }] }

/-- Result of StorageUserIdentifiersGenerateRunE: the error returned (none
on success), the final counters and the records saved to the backend. An
early return before the loop leaves saved empty. -/
structure GenResult where
  err : Option String
  added : Nat
  duplicates : Nat
  saved : List UserOpaqueIdentifier
deriving Repr

/-- StorageUserIdentifiersGenerateRunE, after the schema gate and the
identifier load succeeded: check the user set is non-empty, default the
sector set to the single empty sector, validate every service name against
the fixed valid set, then iterate services (outer) × sectors (middle) ×
users (inner), dedup each tuple against the pre-loaded set; a generation
or save failure aborts mid-loop and the command returns that error with
the earlier saves already committed. -/
def StorageUserIdentifiersGenerateRunE (existing : List UserOpaqueIdentifier)
    (users services sectors : List String) (gen : Nat → Except String UUID)
    (save : Nat → Option String) : GenResult :=
  if users.length = 0 then
    ⟨some "must supply at least one user", 0, 0, []⟩
  else
    let sectors := if sectors.length = 0 then [""] else sectors
    if !IsStringSliceContainsAll services validIdentifierServices then
      ⟨some ("one or more the service names " ++ String.intercalate ", " services ++
        " is invalid, the valid values are: " ++
        String.intercalate ", " validIdentifierServices), 0, 0, []⟩
    else
      match services.foldlM (fun st service =>
        sectors.foldlM (fun st sector =>
          users.foldlM (fun st username =>
            genStep existing gen save service sector username st) st) st)
        (⟨0, 0, []⟩ : GenState) with
      | .ok st => ⟨none, st.added, st.duplicates, st.saved⟩
      | .error (e, st) => ⟨some e, st.added, st.duplicates, st.saved⟩

/-- From the spec words: the Cartesian product of the username set under a
fixed (service, sector), in input order. -/
def tuplesUsers (s r : String) (users : List String) :
    List (String × String × String) :=
  users.map fun u => (s, r, u)

/-- From the spec words: the Cartesian product of sectors × users under a
fixed service, sector outer, username inner. -/
def tuplesSectors (s : String) (sectors users : List String) :
    List (String × String × String) :=
  match sectors with
  | [] => []
  | r :: rs => tuplesUsers s r users ++ tuplesSectors s rs users

/-- From the spec words: the full Cartesian product services × sectors ×
users in the fixed nested order service outer, sector middle, username
inner. -/
def specProductOrder (services sectors users : List String) :
    List (String × String × String) :=
  match services with
  | [] => []
  | s :: ss => tuplesSectors s sectors users ++ specProductOrder ss sectors users

/-- The error-free loop body rephrased on a bare natural key. -/
def genKeyStep (existing : List UserOpaqueIdentifier) (gen : Nat → UUID)
    (k : String × String × String) (st : GenState) : GenState :=
  genStepP existing gen k.1 k.2.1 k.2.2 st

theorem genFold_users (existing : List UserOpaqueIdentifier) (gen : Nat → UUID)
    (s r : String) (users : List String) (st : GenState) :
    users.foldl (fun st username => genStepP existing gen s r username st) st
      = (tuplesUsers s r users).foldl
          (fun st k => genKeyStep existing gen k st) st := by
  induction users generalizing st with
  | nil => rfl
  | cons u us ih => simp [tuplesUsers, List.foldl_cons, genKeyStep] at ih ⊢; exact ih _

theorem genFold_sectors (existing : List UserOpaqueIdentifier) (gen : Nat → UUID)
    (s : String) (sectors users : List String) (st : GenState) :
    sectors.foldl (fun st sector =>
        users.foldl (fun st username =>
          genStepP existing gen s sector username st) st) st
      = (tuplesSectors s sectors users).foldl
          (fun st k => genKeyStep existing gen k st) st := by
  induction sectors generalizing st with
  | nil => rfl
  | cons r rs ih =>
    simp only [tuplesSectors, List.foldl_cons, List.foldl_append]
    rw [genFold_users, ih]

theorem genFold_services (existing : List UserOpaqueIdentifier) (gen : Nat → UUID)
    (services sectors users : List String) (st : GenState) :
    services.foldl (fun st service =>
        sectors.foldl (fun st sector =>
          users.foldl (fun st username =>
            genStepP existing gen service sector username st) st) st) st
      = (specProductOrder services sectors users).foldl
          (fun st k => genKeyStep existing gen k st) st := by
  induction services generalizing st with
  | nil => rfl
  | cons s ss ih =>
    simp only [specProductOrder, List.foldl_cons, List.foldl_append]
    rw [genFold_sectors, ih]

theorem containsIdentifier_eq_keyPresent (id : UserOpaqueIdentifier)
    (ids : List UserOpaqueIdentifier) :
    containsIdentifier id ids = keyPresent (naturalKey id) ids := rfl

theorem filter_length_partition {α : Type} (p : α → Bool) (l : List α) :
    (l.filter p).length + (l.filter fun a => !p a).length = l.length := by
  induction l with
  | nil => rfl
  | cons a l ih =>
    by_cases h : p a = true
    · rw [List.filter_cons_of_pos h, List.filter_cons_of_neg (by simp [h])]
      simp [ih]; omega
    · rw [List.filter_cons_of_neg (by simp at h ⊢; exact h),
        List.filter_cons_of_pos (by simp at h ⊢; exact h)]
      simp [ih]; omega

/-- Full characterization of the generation loop over an arbitrary key
list: each key already present bumps only the duplicate counter, each
fresh key bumps only the added counter and appends exactly one saved
record carrying that natural key, in iteration order. -/
theorem genKeys_spec (existing : List UserOpaqueIdentifier) (gen : Nat → UUID)
    (ks : List (String × String × String)) (st : GenState) :
    (ks.foldl (fun st k => genKeyStep existing gen k st) st).added
        = st.added + (ks.filter fun k => !keyPresent k existing).length ∧
    (ks.foldl (fun st k => genKeyStep existing gen k st) st).duplicates
        = st.duplicates + (ks.filter fun k => keyPresent k existing).length ∧
    (ks.foldl (fun st k => genKeyStep existing gen k st) st).saved.map naturalKey
        = st.saved.map naturalKey ++ (ks.filter fun k => !keyPresent k existing) := by
  induction ks generalizing st with
  | nil => simp
  | cons k ks ih =>
    have hstep : genKeyStep existing gen k st =
        if keyPresent k existing then
          { st with duplicates := st.duplicates + 1 }
        else
          { added := st.added + 1, duplicates := st.duplicates,
            saved := st.saved ++
              [⟨k.1, k.2.1, k.2.2, gen st.added⟩] } := by
      simp only [genKeyStep, genStepP, containsIdentifier_eq_keyPresent]
      rfl
    by_cases h : keyPresent k existing = true
    · rw [List.foldl_cons, hstep, if_pos h,
        List.filter_cons_of_neg (by simp [h]), List.filter_cons_of_pos (by simp [h])]
      obtain ⟨h1, h2, h3⟩ := ih { st with duplicates := st.duplicates + 1 }
      refine ⟨by simpa using h1, by rw [h2]; simp; omega, by simpa using h3⟩
    · simp only [Bool.not_eq_true] at h
      rw [List.foldl_cons, hstep, if_neg (by simp [h]),
        List.filter_cons_of_pos (by simp [h]), List.filter_cons_of_neg (by simp [h])]
      obtain ⟨h1, h2, h3⟩ := ih (GenState.mk (st.added + 1) st.duplicates
        (st.saved ++ [UserOpaqueIdentifier.mk k.1 k.2.1 k.2.2 (gen st.added)]))
      refine ⟨by rw [h1]; simp; omega, by simpa using h2, ?_⟩
      rw [h3]; simp [naturalKey]

theorem tuplesUsers_length (s r : String) (users : List String) :
    (tuplesUsers s r users).length = users.length := by
  simp [tuplesUsers]

theorem tuplesSectors_length (s : String) (sectors users : List String) :
    (tuplesSectors s sectors users).length = sectors.length * users.length := by
  induction sectors with
  | nil => simp [tuplesSectors]
  | cons r rs ih =>
    simp [tuplesSectors, ih, tuplesUsers_length, Nat.succ_mul, Nat.add_comm]

theorem specProductOrder_length (services sectors users : List String) :
    (specProductOrder services sectors users).length
      = services.length * sectors.length * users.length := by
  induction services with
  | nil => simp [specProductOrder]
  | cons s ss ih =>
    simp only [specProductOrder, List.length_append, ih, tuplesSectors_length,
      List.length_cons]
    ring

/-- Concrete existing-identifier set used to evaluate the theorems below. -/
def wExisting : List UserOpaqueIdentifier :=
  [UserOpaqueIdentifier.mk identifierServiceOpenIDConnect "" "u1" (UUID.mk 4 9)]

/-- Concrete always-succeeding UUID generator oracle used to evaluate the
theorems below. -/
def wGen : Nat → Except String UUID := fun n => .ok (UUID.mk 4 n)

/-- Concrete always-succeeding save oracle used to evaluate the theorems
below. -/
def wSave : Nat → Option String := fun _ => none

/-- A foldlM over the Except monad whose step never fails equals the pure
foldl of the ok projections. -/
theorem foldlM_except_ok {σ α ε : Type} (stepM : σ → α → Except ε σ)
    (stepP : σ → α → σ) (hstep : ∀ st x, stepM st x = .ok (stepP st x)) :
    ∀ (l : List α) (st : σ), l.foldlM stepM st = .ok (l.foldl stepP st) := by
  intro l
  induction l with
  | nil => intro st; rfl
  | cons x xs ih =>
    intro st
    simp only [List.foldlM_cons, List.foldl_cons, hstep]
    rw [show ((Except.ok (stepP st x) : Except ε σ) >>= fun s => xs.foldlM stepM s)
      = xs.foldlM stepM (stepP st x) from rfl]
    exact ih _

/-- When the generator and save oracles never fail, the loop body reduces
to its error-free projection with the generator values extracted. -/
theorem genStep_ok (existing : List UserOpaqueIdentifier)
    (gen : Nat → Except String UUID) (save : Nat → Option String)
    (hgen : ∀ n, ∃ u, gen n = .ok u) (hsave : ∀ n, save n = none)
    (service sector username : String) (st : GenState) :
    genStep existing gen save service sector username st
      = .ok (genStepP existing (extractUUID gen) service sector username st) := by
  obtain ⟨u, hu⟩ := hgen st.added
  simp only [genStep, genStepP, extractUUID, hu, hsave]
  by_cases h : containsIdentifier
      (UserOpaqueIdentifier.mk service sector username uuidNil) existing
  · rw [if_pos h, if_pos h]
  · rw [if_neg h, if_neg h]

/-- C1: with non-empty valid services, non-empty users, the sector default
applied, and every UUID generation and backend save succeeding, the bulk
generation succeeds, walks the full Cartesian product in nested order,
counts a duplicate (and saves nothing) for each tuple whose natural key is
in the pre-loaded set, saves exactly one fresh identifier for every other
tuple, and added + duplicates equals |services| × |sectors| × |users|. -/
theorem userIdentifiersGenerate_product_spec
    (existing : List UserOpaqueIdentifier) (users services sectors : List String)
    (gen : Nat → Except String UUID) (save : Nat → Option String) (r : GenResult)
    (hU : users ≠ []) (_hS : services ≠ [])
    (hvalid : IsStringSliceContainsAll services validIdentifierServices = true)
    (hgen : ∀ n, ∃ u, gen n = .ok u) (hsave : ∀ n, save n = none)
    (hr : StorageUserIdentifiersGenerateRunE existing users services sectors gen
      save = r) :
    r.err = none ∧
    r.added + r.duplicates
      = services.length * (if sectors.length = 0 then [""] else sectors).length
          * users.length ∧
    r.saved.length = r.added ∧
    r.saved.map naturalKey
      = (specProductOrder services (if sectors.length = 0 then [""] else sectors)
          users).filter (fun k => !keyPresent k existing) ∧
    r.duplicates
      = ((specProductOrder services (if sectors.length = 0 then [""] else sectors)
          users).filter (fun k => keyPresent k existing)).length := by
  subst hr
  have hU0 : ¬ users.length = 0 := by simpa using hU
  simp only [StorageUserIdentifiersGenerateRunE]
  rw [if_neg hU0]
  rw [if_neg (show ¬ (!IsStringSliceContainsAll services validIdentifierServices)
    = true by simp [hvalid])]
  have hInner : ∀ (service sector : String) (st : GenState),
      users.foldlM (fun st username =>
          genStep existing gen save service sector username st) st
        = .ok (users.foldl (fun st username =>
            genStepP existing (extractUUID gen) service sector username st) st) :=
    fun service sector st =>
      foldlM_except_ok _ _
        (fun st username => genStep_ok existing gen save hgen hsave
          service sector username st) users st
  have hMid : ∀ (service : String) (st : GenState),
      (if sectors.length = 0 then [""] else sectors).foldlM (fun st sector =>
          users.foldlM (fun st username =>
            genStep existing gen save service sector username st) st) st
        = .ok ((if sectors.length = 0 then [""] else sectors).foldl (fun st sector =>
            users.foldl (fun st username =>
              genStepP existing (extractUUID gen) service sector username st) st)
            st) :=
    fun service st =>
      foldlM_except_ok _ _ (fun st sector => hInner service sector st)
        (if sectors.length = 0 then [""] else sectors) st
  have hOuter :
      services.foldlM (fun st service =>
          (if sectors.length = 0 then [""] else sectors).foldlM (fun st sector =>
            users.foldlM (fun st username =>
              genStep existing gen save service sector username st) st) st)
        (⟨0, 0, []⟩ : GenState)
        = .ok (services.foldl (fun st service =>
            (if sectors.length = 0 then [""] else sectors).foldl (fun st sector =>
              users.foldl (fun st username =>
                genStepP existing (extractUUID gen) service sector username st) st)
              st) (⟨0, 0, []⟩ : GenState)) :=
    foldlM_except_ok _ _ (fun st service => hMid service st) services
      (⟨0, 0, []⟩ : GenState)
  rw [hOuter]
  rw [genFold_services]
  obtain ⟨h1, h2, h3⟩ := genKeys_spec existing (extractUUID gen)
    (specProductOrder services (if sectors.length = 0 then [""] else sectors) users)
    (GenState.mk 0 0 [])
  refine ⟨rfl, ?_, ?_, ?_, ?_⟩
  all_goals dsimp only
  · rw [h1, h2]
    simp only [Nat.zero_add]
    rw [Nat.add_comm, filter_length_partition, specProductOrder_length]
  · have hlen := congrArg List.length h3
    simp only [List.length_map, List.length_append, List.length_nil,
      Nat.zero_add] at hlen
    rw [h1, Nat.zero_add]
    exact hlen
  · simpa using h3
  · simpa using h2

/-- C1 witness: one duplicate tuple, one fresh tuple, |S|×|R|×|U| = 2,
with concrete always-succeeding generator and save oracles. -/
theorem userIdentifiersGenerate_product_spec_witness :
    (StorageUserIdentifiersGenerateRunE wExisting ["u1", "u2"]
        [identifierServiceOpenIDConnect] [] wGen wSave).err = none ∧
    (StorageUserIdentifiersGenerateRunE wExisting ["u1", "u2"]
        [identifierServiceOpenIDConnect] [] wGen wSave).added
      + (StorageUserIdentifiersGenerateRunE wExisting ["u1", "u2"]
        [identifierServiceOpenIDConnect] [] wGen wSave).duplicates = 2 := by
  have h := userIdentifiersGenerate_product_spec wExisting ["u1", "u2"]
    [identifierServiceOpenIDConnect] [] wGen wSave
    (StorageUserIdentifiersGenerateRunE wExisting ["u1", "u2"]
      [identifierServiceOpenIDConnect] [] wGen wSave)
    (by decide) (by decide) (by decide)
    (fun n => ⟨UUID.mk 4 n, rfl⟩) (fun _ => rfl) rfl
  refine ⟨h.1, ?_⟩
  rw [h.2.1]; decide

/-- C6: when some requested service name is outside the fixed valid set,
the bulk generation returns an error and saves nothing, whatever the
generator and save oracles would have done. -/
theorem userIdentifiersGenerate_invalid_service_aborts
    (existing : List UserOpaqueIdentifier) (users services sectors : List String)
    (gen : Nat → Except String UUID) (save : Nat → Option String)
    (r : GenResult) (s : String)
    (hs : s ∈ services) (hinvalid : s ∉ validIdentifierServices)
    (hr : StorageUserIdentifiersGenerateRunE existing users services sectors gen
      save = r) :
    r.err.isSome = true ∧ r.saved = [] := by
  subst hr
  simp only [StorageUserIdentifiersGenerateRunE]
  by_cases hu : users.length = 0
  · rw [if_pos hu]; exact ⟨rfl, rfl⟩
  · rw [if_neg hu]
    have hfail : IsStringSliceContainsAll services validIdentifierServices ≠ true := by
      intro hall
      simp only [IsStringSliceContainsAll, List.all_eq_true] at hall
      exact hinvalid (by simpa using hall s hs)
    have hfalse : IsStringSliceContainsAll services validIdentifierServices = false :=
      Bool.eq_false_iff.mpr hfail
    rw [if_pos (by simp [hfalse])]
    exact ⟨rfl, rfl⟩

/-- C6 witness: the service name bogus is rejected with nothing saved. -/
theorem userIdentifiersGenerate_invalid_service_aborts_witness :
    (StorageUserIdentifiersGenerateRunE wExisting ["u1"] ["bogus"] [] wGen
        wSave).err.isSome = true ∧
    (StorageUserIdentifiersGenerateRunE wExisting ["u1"] ["bogus"] [] wGen
        wSave).saved = [] := by
  exact userIdentifiersGenerate_invalid_service_aborts wExisting ["u1"] ["bogus"] []
    wGen wSave _ "bogus" (by decide) (by decide) rfl

/-- C9: an empty username set makes the bulk generation fail before the
loop, saving nothing, for any services and sectors. -/
theorem userIdentifiersGenerate_empty_users_errors
    (existing : List UserOpaqueIdentifier) (services sectors : List String)
    (gen : Nat → Except String UUID) (save : Nat → Option String) (r : GenResult)
    (hr : StorageUserIdentifiersGenerateRunE existing [] services sectors gen save
      = r) :
    r.err = some "must supply at least one user" ∧ r.saved = [] := by
  subst hr
  exact ⟨rfl, rfl⟩

/-- C9 witness: empty users with valid non-empty services and sectors. -/
theorem userIdentifiersGenerate_empty_users_errors_witness :
    (StorageUserIdentifiersGenerateRunE wExisting []
        [identifierServiceOpenIDConnect] ["sector1"] wGen wSave).err
      = some "must supply at least one user" ∧
    (StorageUserIdentifiersGenerateRunE wExisting []
        [identifierServiceOpenIDConnect] ["sector1"] wGen wSave).saved = [] := by
  exact userIdentifiersGenerate_empty_users_errors wExisting
    [identifierServiceOpenIDConnect] ["sector1"] wGen wSave _ rfl

example :
    (StorageUserIdentifiersGenerateRunE
      [⟨identifierServiceOpenIDConnect, "", "u1", ⟨4, 77⟩⟩]
      ["u1", "u2"] [identifierServiceOpenIDConnect] []
      (fun n => .ok ⟨4, n⟩) (fun _ => none)).duplicates = 1 := rfl

example :
    (StorageUserIdentifiersGenerateRunE
      [] ["u1", "u2"] [identifierServiceOpenIDConnect] []
      (fun n => .ok ⟨4, n⟩)
      (fun j => if j = 1 then some "boom" else none)).saved.length = 1 := rfl

/-- Modelled from the spec: the sentinel target meaning latest, passed to
the backend when an up migration has no explicit target (the constant
storage.SchemaLatest is declared outside the provided source). -/
def SchemaLatest : Int := -1

/-- Result of a migration command run: the error returned (none on
success), whether the destructive-operation confirmation was requested,
and the apply-migration call handed to the backend, as (up, target), if
one was made. -/
structure MigrateResult where
  err : Option String
  prompted : Bool
  migrateCalled : Option (Bool × Int)
deriving DecidableEq, Repr

/-- NewStorageMigrationRunE: up migrations go straight to the backend with
the flag target or the latest sentinel; down migrations demand an explicit
target and then the typed operator confirmation before the backend call.
The confirmation read is modelled from the spec: termReadConfirmation
(declared outside the provided source) yields the string the operator
typed, or a read error, and confirms exactly when that string is the
literal DESTROY; migrateErr is the backend oracle for the apply call. -/
def NewStorageMigrationRunE (up : Bool) (targetChanged : Bool) (target : Int)
    (confirmation : Except String String) (migrateErr : Option String) :
    MigrateResult :=
  if up then
    if targetChanged then ⟨migrateErr, false, some (true, target)⟩
    else ⟨migrateErr, false, some (true, SchemaLatest)⟩
  else
    if !targetChanged then ⟨some "you must set a target version", false, none⟩
    else
      match confirmation with
      | .error e => ⟨some e, true, none⟩
      | .ok typed =>
        if typed = "DESTROY" then ⟨migrateErr, true, some (false, target)⟩
        else
          ⟨some "cancelling down migration due to user not accepting data destruction",
            true, none⟩

/-- C2: a down migration whose confirmation does not produce the literal
DESTROY returns an error and never invokes the backend apply-migration
operation, and the backend is invoked only after that exact confirmation. -/
theorem storageMigrationDown_requires_confirmation
    (targetChanged : Bool) (target : Int) (confirmation : Except String String)
    (migrateErr : Option String) (r : MigrateResult)
    (hr : NewStorageMigrationRunE false targetChanged target confirmation migrateErr
      = r) :
    (confirmation ≠ .ok "DESTROY" → r.err.isSome = true ∧ r.migrateCalled = none) ∧
    (r.migrateCalled ≠ none → confirmation = .ok "DESTROY") := by
  subst hr
  simp only [NewStorageMigrationRunE, if_neg (by simp : ¬ (false = true))]
  cases targetChanged with
  | false => simp
  | true =>
    cases confirmation with
    | error e => simp
    | ok typed =>
      by_cases h : typed = "DESTROY"
      · subst h; simp
      · simp [h]

/-- C2 witness: a mistyped confirmation aborts the down migration. -/
theorem storageMigrationDown_requires_confirmation_witness :
    ((Except.ok "destroy" : Except String String) ≠ .ok "DESTROY") ∧
    ((NewStorageMigrationRunE false true 2 (.ok "destroy") none).err.isSome = true ∧
      (NewStorageMigrationRunE false true 2 (.ok "destroy") none).migrateCalled
        = none) := by
  have h := storageMigrationDown_requires_confirmation true 2 (.ok "destroy") none
    (NewStorageMigrationRunE false true 2 (.ok "destroy") none) rfl
  have hne : (Except.ok "destroy" : Except String String) ≠ .ok "DESTROY" := by
    intro hc
    injection hc with hc2
    exact absurd hc2 (by decide)
  exact ⟨hne, h.1 hne⟩

/-- C10: a down migration without an explicit target flag fails before the
confirmation is requested and before any backend apply-migration call. -/
theorem storageMigrationDown_requires_target
    (target : Int) (confirmation : Except String String) (migrateErr : Option String)
    (r : MigrateResult)
    (hr : NewStorageMigrationRunE false false target confirmation migrateErr = r) :
    r.err = some "you must set a target version" ∧ r.prompted = false ∧
      r.migrateCalled = none := by
  subst hr
  exact ⟨rfl, rfl, rfl⟩

/-- C10 witness: no target flag on a down migration, even with a willing
confirmation oracle and a healthy backend. -/
theorem storageMigrationDown_requires_target_witness :
    (NewStorageMigrationRunE false false 1 (.ok "DESTROY") none).err
        = some "you must set a target version" ∧
    (NewStorageMigrationRunE false false 1 (.ok "DESTROY") none).prompted = false ∧
    (NewStorageMigrationRunE false false 1 (.ok "DESTROY") none).migrateCalled
        = none := by
  exact storageMigrationDown_requires_target 1 (.ok "DESTROY") none _ rfl

/-- Result of the encryption change-key command: the error returned and
whether the backend key-rotation operation was invoked. -/
structure ChangeKeyResult where
  err : Option String
  rotated : Bool
deriving DecidableEq, Repr

/-- StorageSchemaEncryptionChangeKeyRunE: gate on the schema check, fetch
the schema version, require it at least 1, then require the resolved new
key (flag value or prompted value, resolved by the terminal collaborator)
to be non-blank and at least 20 bytes (the Go len of a string is its
UTF-8 byte count, hence utf8ByteSize) before invoking the backend
rotation. schemaCheck and versionFetch are backend oracles; rotateErr is
the backend rotation outcome. -/
def StorageSchemaEncryptionChangeKeyRunE (schemaCheck : Option String)
    (versionFetch : Except String Int) (key : String) (rotateErr : Option String) :
    ChangeKeyResult :=
  match schemaCheck with
  | some e => ⟨some e, false⟩
  | none =>
    match versionFetch with
    | .error e => ⟨some e, false⟩
    | .ok version =>
      if version ≤ 0 then
        ⟨some "schema version must be at least version 1 to change the encryption key",
          false⟩
      else if key = "" then
        ⟨some "the new encryption key must not be blank", false⟩
      else if key.utf8ByteSize < 20 then
        ⟨some "the new encryption key must be at least 20 characters", false⟩
      else ⟨rotateErr, true⟩

/-- C4: the change-key command errors without invoking the backend
rotation whenever the fetched schema version is 0 or lower, the key is
blank, or the key is shorter than 20 bytes (the Go length of the string);
rotation is invoked only with schema version at least 1 and a key of at
least 20 bytes. -/
theorem encryptionChangeKey_guards (schemaCheck : Option String)
    (versionFetch : Except String Int) (key : String) (rotateErr : Option String)
    (r : ChangeKeyResult)
    (hr : StorageSchemaEncryptionChangeKeyRunE schemaCheck versionFetch key rotateErr
      = r) :
    (∀ v, versionFetch = .ok v → v ≤ 0 ∨ key = "" ∨ key.utf8ByteSize < 20 →
      r.err.isSome = true ∧ r.rotated = false) ∧
    (r.rotated = true → schemaCheck = none ∧
      (∃ v, versionFetch = .ok v ∧ 1 ≤ v) ∧ key ≠ "" ∧ 20 ≤ key.utf8ByteSize) := by
  subst hr
  cases schemaCheck with
  | some e => simp [StorageSchemaEncryptionChangeKeyRunE]
  | none =>
    cases versionFetch with
    | error e => simp [StorageSchemaEncryptionChangeKeyRunE]
    | ok v =>
      by_cases h0 : v ≤ 0
      · simp [StorageSchemaEncryptionChangeKeyRunE, h0]
      · by_cases hblank : key = ""
        · simp [StorageSchemaEncryptionChangeKeyRunE, h0, hblank]
        · by_cases hshort : key.utf8ByteSize < 20
          · simp [StorageSchemaEncryptionChangeKeyRunE, h0, hblank, hshort]
          · simp [StorageSchemaEncryptionChangeKeyRunE, h0, hblank, hshort]
            exact ⟨by omega, by omega⟩

/-- C4 witness: a 19-byte key is rejected with no rotation. -/
theorem encryptionChangeKey_guards_witness :
    ((Except.ok 3 : Except String Int) = .ok 3) ∧
    ((3 : Int) ≤ 0 ∨ "abcdefghijklmnopqrs" = "" ∨
      "abcdefghijklmnopqrs".utf8ByteSize < 20) ∧
    ((StorageSchemaEncryptionChangeKeyRunE none (.ok 3) "abcdefghijklmnopqrs"
        none).err.isSome = true ∧
      (StorageSchemaEncryptionChangeKeyRunE none (.ok 3) "abcdefghijklmnopqrs"
        none).rotated = false) := by
  have h := encryptionChangeKey_guards none (.ok 3) "abcdefghijklmnopqrs" none
    (StorageSchemaEncryptionChangeKeyRunE none (.ok 3) "abcdefghijklmnopqrs" none) rfl
  exact ⟨rfl, by right; right; decide, h.1 3 rfl (by right; right; decide)⟩

/-- Result of the single identifier add command: the error returned,
whether a backend save was invoked, and the record persisted if the save
succeeded. -/
structure AddResult where
  err : Option String
  saveAttempted : Bool
  saved : Option UserOpaqueIdentifier
deriving Repr

/-- The tail of StorageUserIdentifiersAddRunE after the service name has
been resolved: parse and version-check a caller-supplied identifier (the
uuid library parse is an oracle), or use the freshly generated one, then
run the schema gate and save. -/
def addWithService (service sector username : String)
    (identifierFlag : Option String) (parse : String → Except String UUID)
    (genned : UUID) (schemaCheck : Option String) (saveErr : Option String) :
    AddResult :=
  let finish : UserOpaqueIdentifier → AddResult := fun id =>
    match schemaCheck with
    | some e => ⟨some e, false, none⟩
    | none =>
      match saveErr with
      | some e => ⟨some e, true, none⟩
      | none => ⟨none, true, some id⟩
  match identifierFlag with
  | some s =>
    match parse s with
    | .error e =>
      ⟨some ("the identifier provided " ++ s ++
        " is invalid as it must be a version 4 UUID but parsing it had an error: "
        ++ e), false, none⟩
    | .ok u =>
      if u.version ≠ 4 then
        ⟨some ("the identifier providerd " ++ s ++ " is a version " ++
          toString u.version ++
          " UUID but only version 4 UUIDs accepted as identifiers"), false, none⟩
      else finish ⟨service, sector, username, u⟩
  | none => finish ⟨service, sector, username, genned⟩

/-- StorageUserIdentifiersAddRunE: an empty service flag defaults to the
OpenID Connect service, a non-empty one must be in the fixed valid set;
then the identifier is resolved and saved via addWithService. -/
def StorageUserIdentifiersAddRunE (service sector username : String)
    (identifierFlag : Option String) (parse : String → Except String UUID)
    (genned : UUID) (schemaCheck : Option String) (saveErr : Option String) :
    AddResult :=
  if service = "" then
    addWithService identifierServiceOpenIDConnect sector username identifierFlag
      parse genned schemaCheck saveErr
  else if !IsStringInSlice service validIdentifierServices then
    ⟨some ("the service name " ++ service ++ " is invalid, the valid values are: "
      ++ String.intercalate ", " validIdentifierServices), false, none⟩
  else
    addWithService service sector username identifierFlag parse genned schemaCheck
      saveErr

/-- The error message the add command produces for a wrong UUID version,
naming that version (the misspelling providerd is in the source). -/
def wrongVersionMsg (s : String) (v : Nat) : String :=
  "the identifier providerd " ++ s ++ " is a version " ++ toString v ++
    " UUID but only version 4 UUIDs accepted as identifiers"

/-- C5: a caller-supplied identifier that does not parse is rejected
before any save; one that parses with version other than 4 is rejected
before any save, and when the service name passed validation the error is
the one naming the offending version; a persisted record carries either
the freshly generated UUID (no flag) or a caller-supplied UUID that
parsed with version exactly 4. -/
theorem userIdentifiersAdd_uuid_validation (service sector username : String)
    (identifierFlag : Option String) (parse : String → Except String UUID)
    (genned : UUID) (schemaCheck : Option String) (saveErr : Option String)
    (r : AddResult)
    (hr : StorageUserIdentifiersAddRunE service sector username identifierFlag parse
      genned schemaCheck saveErr = r) :
    (∀ s e, identifierFlag = some s → parse s = .error e →
      r.err.isSome = true ∧ r.saveAttempted = false) ∧
    (∀ s u, identifierFlag = some s → parse s = .ok u → u.version ≠ 4 →
      r.err.isSome = true ∧ r.saveAttempted = false) ∧
    (∀ s u, identifierFlag = some s → parse s = .ok u → u.version ≠ 4 →
      (service = "" ∨ IsStringInSlice service validIdentifierServices = true) →
      r.err = some (wrongVersionMsg s u.version)) ∧
    (∀ id, r.saved = some id →
      (identifierFlag = none → id.identifier = genned) ∧
      (∀ s, identifierFlag = some s →
        ∃ u, parse s = .ok u ∧ u.version = 4 ∧ id.identifier = u)) := by
  have key : ∀ sv,
      addWithService sv sector username identifierFlag parse genned schemaCheck
        saveErr = r →
      (∀ s e, identifierFlag = some s → parse s = .error e →
        r.err.isSome = true ∧ r.saveAttempted = false) ∧
      (∀ s u, identifierFlag = some s → parse s = .ok u → u.version ≠ 4 →
        r.err = some (wrongVersionMsg s u.version) ∧ r.saveAttempted = false) ∧
      (∀ id, r.saved = some id →
        (identifierFlag = none → id.identifier = genned) ∧
        (∀ s, identifierFlag = some s →
          ∃ u, parse s = .ok u ∧ u.version = 4 ∧ id.identifier = u)) := by
    intro sv hsv
    subst hsv
    cases hflag : identifierFlag with
    | none =>
      refine ⟨(by intro s e hc; cases hc), (by intro s u hc; cases hc), ?_⟩
      intro id hid
      simp only [addWithService] at hid
      cases schemaCheck with
      | some e => cases hid
      | none =>
        cases saveErr with
        | some e => cases hid
        | none =>
          refine ⟨fun _ => ?_, (by intro s hc; cases hc)⟩
          cases hid
          rfl
    | some s =>
      cases hps : parse s with
      | error e =>
        refine ⟨?_, ?_, ?_⟩
        · intro s2 e2 hs2 _
          cases hs2
          simp [addWithService, hps]
        · intro s2 u hs2 hp2
          cases hs2
          rw [hps] at hp2
          cases hp2
        · intro id hid
          simp [addWithService, hps] at hid
      | ok u =>
        by_cases hv : u.version = 4
        · refine ⟨?_, ?_, ?_⟩
          · intro s2 e2 hs2 hp2
            cases hs2
            rw [hps] at hp2
            cases hp2
          · intro s2 u2 hs2 hp2 hv2
            cases hs2
            rw [hps] at hp2
            cases hp2
            exact absurd hv hv2
          · intro id hid
            refine ⟨(by intro hc; cases hc), ?_⟩
            intro s2 hs2
            cases hs2
            refine ⟨u, hps, hv, ?_⟩
            simp only [addWithService, hps,
              if_neg (show ¬ (u.version ≠ 4) by simp [hv])] at hid
            cases schemaCheck with
            | some e => cases hid
            | none =>
              cases saveErr with
              | some e => cases hid
              | none => cases hid; rfl
        · refine ⟨?_, ?_, ?_⟩
          · intro s2 e2 hs2 hp2
            cases hs2
            rw [hps] at hp2
            cases hp2
          · intro s2 u2 hs2 hp2 _
            cases hs2
            rw [hps] at hp2
            cases hp2
            constructor
            · simp [addWithService, hps, hv, wrongVersionMsg]
            · simp [addWithService, hps, hv]
          · intro id hid
            simp [addWithService, hps, hv] at hid
  simp only [StorageUserIdentifiersAddRunE] at hr
  by_cases hsvc : service = ""
  · rw [if_pos hsvc] at hr
    obtain ⟨k1, k2, k3⟩ := key _ hr
    refine ⟨k1, ?_, ?_, k3⟩
    · intro s u hs hp hv
      have hk := k2 s u hs hp hv
      rw [hk.1]
      exact ⟨rfl, hk.2⟩
    · intro s u hs hp hv _
      exact (k2 s u hs hp hv).1
  · rw [if_neg hsvc] at hr
    by_cases hin : IsStringInSlice service validIdentifierServices
    · rw [if_neg (by simp [hin])] at hr
      obtain ⟨k1, k2, k3⟩ := key _ hr
      refine ⟨k1, ?_, ?_, k3⟩
      · intro s u hs hp hv
        have hk := k2 s u hs hp hv
        rw [hk.1]
        exact ⟨rfl, hk.2⟩
      · intro s u hs hp hv _
        exact (k2 s u hs hp hv).1
    · rw [if_pos (by simpa using hin)] at hr
      subst hr
      refine ⟨?_, ?_, ?_, ?_⟩
      · intro s e _ _; exact ⟨rfl, rfl⟩
      · intro s u _ _ _; exact ⟨rfl, rfl⟩
      · intro s u _ _ _ hok
        rcases hok with hok | hok
        · exact absurd hok hsvc
        · exact absurd hok (by simpa using hin)
      · intro id hid; cases hid

/-- C5 witness: a version 1 UUID supplied for a valid service is rejected
with the version named and no save attempted. -/
theorem userIdentifiersAdd_uuid_validation_witness :
    ((StorageUserIdentifiersAddRunE "" "" "john" (some "x-uuid")
        (fun _ => .ok (UUID.mk 1 5)) (UUID.mk 4 0) none none).err
      = some (wrongVersionMsg "x-uuid" 1)) ∧
    (StorageUserIdentifiersAddRunE "" "" "john" (some "x-uuid")
        (fun _ => .ok (UUID.mk 1 5)) (UUID.mk 4 0) none none).saveAttempted
      = false := by
  have h := userIdentifiersAdd_uuid_validation "" "" "john" (some "x-uuid")
    (fun _ => .ok (UUID.mk 1 5)) (UUID.mk 4 0) none none
    (StorageUserIdentifiersAddRunE "" "" "john" (some "x-uuid")
      (fun _ => .ok (UUID.mk 1 5)) (UUID.mk 4 0) none none) rfl
  refine ⟨?_, ?_⟩
  · exact h.2.2.1 "x-uuid" (UUID.mk 1 5) rfl rfl (by decide) (Or.inl rfl)
  · exact (h.2.1 "x-uuid" (UUID.mk 1 5) rfl rfl (by decide)).2

/-- C8: an empty service flag does not fail service validation: the run
equals the tail run with the OpenID Connect service, any persisted record
carries that service, and the service-validation rejection happens exactly
for a non-empty service outside the fixed valid set. -/
theorem userIdentifiersAdd_empty_service_defaults (service sector username : String)
    (identifierFlag : Option String) (parse : String → Except String UUID)
    (genned : UUID) (schemaCheck : Option String) (saveErr : Option String) :
    (service = "" →
      StorageUserIdentifiersAddRunE service sector username identifierFlag parse
          genned schemaCheck saveErr
        = addWithService identifierServiceOpenIDConnect sector username
            identifierFlag parse genned schemaCheck saveErr) ∧
    (service = "" → ∀ id,
      (StorageUserIdentifiersAddRunE service sector username identifierFlag parse
        genned schemaCheck saveErr).saved = some id →
      id.service = identifierServiceOpenIDConnect) ∧
    (service ≠ "" → IsStringInSlice service validIdentifierServices = true →
      StorageUserIdentifiersAddRunE service sector username identifierFlag parse
          genned schemaCheck saveErr
        = addWithService service sector username identifierFlag parse genned
            schemaCheck saveErr) ∧
    (service ≠ "" → IsStringInSlice service validIdentifierServices = false →
      (StorageUserIdentifiersAddRunE service sector username identifierFlag parse
        genned schemaCheck saveErr).err.isSome = true ∧
      (StorageUserIdentifiersAddRunE service sector username identifierFlag parse
        genned schemaCheck saveErr).saved = none) := by
  have hserv : ∀ sv id,
      (addWithService sv sector username identifierFlag parse genned schemaCheck
        saveErr).saved = some id → id.service = sv := by
    intro sv id hid
    cases identifierFlag with
    | none =>
      simp only [addWithService] at hid
      cases schemaCheck with
      | some e => cases hid
      | none =>
        cases saveErr with
        | some e => cases hid
        | none => cases hid; rfl
    | some s =>
      cases hps : parse s with
      | error e => simp [addWithService, hps] at hid
      | ok u =>
        by_cases hv : u.version = 4
        · simp only [addWithService, hps,
            if_neg (show ¬ (u.version ≠ 4) by simp [hv])] at hid
          cases schemaCheck with
          | some e => cases hid
          | none =>
            cases saveErr with
            | some e => cases hid
            | none => cases hid; rfl
        · simp [addWithService, hps, hv] at hid
  by_cases hsvc : service = ""
  · subst hsvc
    refine ⟨fun _ => ?_, fun _ => ?_, fun hc _ => absurd rfl hc,
      fun hc _ => absurd rfl hc⟩
    · simp [StorageUserIdentifiersAddRunE]
    · intro id hid
      exact hserv _ id (by simpa [StorageUserIdentifiersAddRunE] using hid)
  · refine ⟨fun hc => absurd hc hsvc, fun hc => absurd hc hsvc, ?_, ?_⟩
    · intro _ hin
      simp [StorageUserIdentifiersAddRunE, hsvc, hin]
    · intro _ hin
      constructor
      · simp [StorageUserIdentifiersAddRunE, hsvc, hin]
      · simp [StorageUserIdentifiersAddRunE, hsvc, hin]

/-- C8 witness: the empty service flag yields a record persisted under the
OpenID Connect service. -/
theorem userIdentifiersAdd_empty_service_defaults_witness :
    StorageUserIdentifiersAddRunE "" "sec" "john" none
        (fun _ => .error "unused") (UUID.mk 4 7) none none
      = addWithService identifierServiceOpenIDConnect "sec" "john" none
          (fun _ => .error "unused") (UUID.mk 4 7) none none := by
  exact (userIdentifiersAdd_empty_service_defaults "" "sec" "john" none
    (fun _ => .error "unused") (UUID.mk 4 7) none none).1 rfl

/-- Result of the per-record save loop of the import command: the error
returned (none on success), the records saved (in save order), and the
positions at which a save was attempted. -/
structure ImportLoopResult where
  err : Option String
  saved : List UserOpaqueIdentifier
  attempted : List Nat
deriving Repr

/-- The save loop of StorageUserIdentifiersImportRunE: save each record in
input order, returning on the first backend save error; the backend save
outcome is an oracle indexed by position. -/
def importLoop (save : Nat → Option String) (i : Nat) :
    List UserOpaqueIdentifier → ImportLoopResult
  | [] => ⟨none, [], []⟩
  | x :: xs =>
    match save i with
    | some e => ⟨some e, [], [i]⟩
    | none =>
      let r := importLoop save (i + 1) xs
      ⟨r.err, x :: r.saved, i :: r.attempted⟩

/-- Result of the import command. -/
structure ImportResult where
  err : Option String
  saved : List UserOpaqueIdentifier
  attempted : List Nat
deriving Repr

/-- StorageUserIdentifiersImportRunE after the file has been read and
unmarshalled into the envelope: an empty identifier collection is
rejected before the schema gate; otherwise each record is saved via the
single-record save operation in input order, stopping at the first
failure. -/
def StorageUserIdentifiersImportRunE (identifiers : List UserOpaqueIdentifier)
    (schemaCheck : Option String) (save : Nat → Option String) : ImportResult :=
  if identifiers.length = 0 then
    ⟨some "cannot import a file with no data", [], []⟩
  else
    match schemaCheck with
    | some e => ⟨some e, [], []⟩
    | none =>
      let r := importLoop save 0 identifiers
      ⟨r.err, r.saved, r.attempted⟩

theorem importLoop_all_ok (save : Nat → Option String)
    (ids : List UserOpaqueIdentifier) (i : Nat)
    (h : ∀ j, j < ids.length → save (i + j) = none) :
    importLoop save i ids = ⟨none, ids, List.range' i ids.length⟩ := by
  induction ids generalizing i with
  | nil => simp [importLoop]
  | cons x xs ih =>
    have h0 : save i = none := by simpa using h 0 (by simp)
    simp only [importLoop, h0]
    rw [ih (i + 1) (fun j hj => by
      have h2 := h (j + 1) (by simpa using Nat.succ_lt_succ hj)
      have he : i + 1 + j = i + (j + 1) := by omega
      rw [he]; exact h2)]
    simp [List.range']

theorem importLoop_fails_at (save : Nat → Option String)
    (ids : List UserOpaqueIdentifier) (i k : Nat) (e : String)
    (hk : k < ids.length)
    (hok : ∀ j, j < k → save (i + j) = none)
    (hfail : save (i + k) = some e) :
    importLoop save i ids = ⟨some e, ids.take k, List.range' i (k + 1)⟩ := by
  induction ids generalizing i k with
  | nil => simp at hk
  | cons x xs ih =>
    cases k with
    | zero =>
      simp only [Nat.add_zero] at hfail
      simp [importLoop, hfail, List.range']
    | succ k =>
      have h0 : save i = none := by simpa using hok 0 (Nat.succ_pos k)
      simp only [importLoop, h0]
      rw [ih (i + 1) k (by simpa using hk)
        (fun j hj => by
          have h2 := hok (j + 1) (by simpa using Nat.succ_lt_succ hj)
          have he : i + 1 + j = i + (j + 1) := by omega
          rw [he]; exact h2)
        (by
          have he : i + 1 + k = i + (k + 1) := by omega
          rw [he]; exact hfail)]
      simp [List.range']

/-- C7: an import with an empty identifier collection errors with nothing
saved; with a non-empty collection and all saves succeeding every record
is saved, in input order; a save failure at position k leaves exactly the
records before k saved and attempts no save past k. -/
theorem userIdentifiersImport_order_and_errors
    (identifiers : List UserOpaqueIdentifier) (schemaCheck : Option String)
    (save : Nat → Option String) (r : ImportResult)
    (hr : StorageUserIdentifiersImportRunE identifiers schemaCheck save = r) :
    (identifiers = [] →
      r.err = some "cannot import a file with no data" ∧ r.saved = []) ∧
    (identifiers ≠ [] → schemaCheck = none →
      (∀ j, j < identifiers.length → save j = none) →
      r.err = none ∧ r.saved = identifiers ∧
        r.attempted = List.range' 0 identifiers.length) ∧
    (∀ k e, identifiers ≠ [] → schemaCheck = none →
      k < identifiers.length → (∀ j, j < k → save j = none) → save k = some e →
      r.err = some e ∧ r.saved = identifiers.take k ∧
        r.attempted = List.range' 0 (k + 1)) := by
  subst hr
  refine ⟨?_, ?_, ?_⟩
  · intro hnil
    subst hnil
    exact ⟨rfl, rfl⟩
  · intro hne hsc hok
    have hlen : ¬ identifiers.length = 0 := by simpa using hne
    subst hsc
    simp only [StorageUserIdentifiersImportRunE, if_neg hlen]
    rw [importLoop_all_ok save identifiers 0 (fun j hj => by simpa using hok j hj)]
    exact ⟨rfl, rfl, rfl⟩
  · intro k e hne hsc hk hok hfail
    have hlen : ¬ identifiers.length = 0 := by simpa using hne
    subst hsc
    simp only [StorageUserIdentifiersImportRunE, if_neg hlen]
    rw [importLoop_fails_at save identifiers 0 k e hk
      (fun j hj => by simpa using hok j hj) (by simpa using hfail)]
    exact ⟨rfl, rfl, rfl⟩

/-- Concrete three-record envelope used to evaluate the import theorem. -/
def wImport : List UserOpaqueIdentifier :=
  [UserOpaqueIdentifier.mk identifierServiceOpenIDConnect "" "a" (UUID.mk 4 1),
   UserOpaqueIdentifier.mk identifierServiceOpenIDConnect "" "b" (UUID.mk 4 2),
   UserOpaqueIdentifier.mk identifierServiceOpenIDConnect "" "c" (UUID.mk 4 3)]

/-- C7 witness: a save failure at position 1 of a three-record import saves
only the first record and attempts positions 0 and 1. -/
theorem userIdentifiersImport_order_and_errors_witness :
    (StorageUserIdentifiersImportRunE wImport none
        (fun j => if j = 1 then some "boom" else none)).err = some "boom" ∧
    (StorageUserIdentifiersImportRunE wImport none
        (fun j => if j = 1 then some "boom" else none)).saved = wImport.take 1 ∧
    (StorageUserIdentifiersImportRunE wImport none
        (fun j => if j = 1 then some "boom" else none)).attempted
      = List.range' 0 2 := by
  have h := userIdentifiersImport_order_and_errors wImport none
    (fun j => if j = 1 then some "boom" else none)
    (StorageUserIdentifiersImportRunE wImport none
      (fun j => if j = 1 then some "boom" else none)) rfl
  exact h.2.2 1 "boom" (by decide) rfl (by decide)
    (by intro j hj; interval_cases j; rfl) rfl

/-- One backend page fetch: up to limit records starting at the zero-based
page index (LoadWebauthnDevices / LoadTOTPConfigurations with (limit,
page), the backend modelled as the stable list db). -/
def fetchPage {α : Type} (db : List α) (limit page : Nat) : List α :=
  (db.drop (page * limit)).take limit

/-- The shared pagination loop of StorageWebauthnListAllRunE and
StorageTOTPExportRunE: starting at the given page, fetch a page (the
backend fetch can fail, an error return modelled by the fetchErr oracle
indexed by page, aborting the loop), emit its records, stop when a fetch
returns fewer than limit records, else move to the next page. On success
returns the emitted records in order and the number of fetches
performed. -/
def paginatedFetchAll {α : Type} (db : List α) (limit : Nat) (hl : 0 < limit)
    (fetchErr : Nat → Option String) (page : Nat) :
    Except String (List α × Nat) :=
  match fetchErr page with
  | some e => .error e
  | none =>
    if h : (fetchPage db limit page).length < limit then
      .ok (fetchPage db limit page, 1)
    else
      match paginatedFetchAll db limit hl fetchErr (page + 1) with
      | .error e => .error e
      | .ok r => .ok (fetchPage db limit page ++ r.1, r.2 + 1)
termination_by db.length - page * limit
decreasing_by
  simp only [fetchPage, List.length_take, List.length_drop] at h
  rw [Nat.succ_mul]
  omega

/-- Positivity of the hard-coded page size 10 used at both call sites. -/
def tenPos : 0 < 10 := by decide

/-- StorageTOTPExportRunE viewed through its pagination structure: the
records it renders (in fetch order) and the fetches it performs, or the
first fetch error; the format rendering and the filesystem are external
collaborators. -/
def StorageTOTPExportRunE {α : Type} (db : List α)
    (fetchErr : Nat → Option String) : Except String (List α × Nat) :=
  paginatedFetchAll db 10 tenPos fetchErr 0

/-- StorageWebauthnListAllRunE viewed through its pagination structure: a
failed first fetch aborts with its error, an empty first page aborts with
the no-devices error, otherwise the loop emits all records and the device
table is printed. -/
def StorageWebauthnListAllRunE {α : Type} (db : List α)
    (fetchErr : Nat → Option String) : Except String (List α × Nat) :=
  match fetchErr 0 with
  | some e => .error e
  | none =>
    if (fetchPage db 10 0).length = 0 then
      Except.error "no webauthn devices in database"
    else paginatedFetchAll db 10 tenPos fetchErr 0

theorem paginatedFetchAll_spec {α : Type} (db : List α) (limit : Nat)
    (hl : 0 < limit) (fetchErr : Nat → Option String)
    (hfe : ∀ p, fetchErr p = none) :
    ∀ page, paginatedFetchAll db limit hl fetchErr page
      = .ok (db.drop (page * limit), (db.length - page * limit) / limit + 1) := by
  have main : ∀ n page, db.length - page * limit ≤ n →
      paginatedFetchAll db limit hl fetchErr page
        = .ok (db.drop (page * limit), (db.length - page * limit) / limit + 1) := by
    intro n
    induction n with
    | zero =>
      intro page hp
      have hz : db.length - page * limit = 0 := Nat.le_zero.mp hp
      have hdrop : db.drop (page * limit) = [] := by
        apply List.eq_nil_of_length_eq_zero
        simpa using hz
      unfold paginatedFetchAll
      simp only [hfe]
      rw [dif_pos (by simpa [fetchPage, hdrop] using hl)]
      simp [fetchPage, hdrop, hz]
    | succ n ih =>
      intro page hp
      unfold paginatedFetchAll
      simp only [hfe]
      by_cases h : (fetchPage db limit page).length < limit
      · rw [dif_pos h]
        simp only [fetchPage, List.length_take, List.length_drop] at h
        have hlt : db.length - page * limit < limit := by omega
        have htake : (db.drop (page * limit)).take limit = db.drop (page * limit) := by
          apply List.take_of_length_le
          simpa using Nat.le_of_lt hlt
        rw [Nat.div_eq_of_lt hlt]
        simp [fetchPage, htake]
      · rw [dif_neg h]
        simp only [fetchPage, List.length_take, List.length_drop] at h
        have hge : limit ≤ db.length - page * limit := by omega
        have hnext : db.length - (page + 1) * limit ≤ n := by
          rw [Nat.succ_mul]
          omega
        rw [ih (page + 1) hnext]
        have hdrop1 : db.drop ((page + 1) * limit)
            = (db.drop (page * limit)).drop limit := by
          rw [List.drop_drop, Nat.succ_mul, Nat.add_comm]
        dsimp only
        rw [Except.ok.injEq, Prod.mk.injEq]
        constructor
        · show fetchPage db limit page ++ db.drop ((page + 1) * limit)
            = db.drop (page * limit)
          rw [hdrop1]
          exact List.take_append_drop limit (db.drop (page * limit))
        · show (db.length - (page + 1) * limit) / limit + 1 + 1
            = (db.length - page * limit) / limit + 1
          have hsub : db.length - (page + 1) * limit
              = db.length - page * limit - limit := by
            rw [Nat.succ_mul, ← Nat.sub_sub]
          rw [hsub, ← Nat.div_eq_sub_div hl hge]
  intro page
  exact main (db.length - page * limit) page (Nat.le_refl _)

/-- C3 counterexample: over a collection of exactly M = 10 records with
page length L = 10 and an error-free backend the TOTP export performs 2
fetches, not the claimed ⌈M/L⌉ = 1. -/
theorem paginated_ceil_fetch_count_refuted :
    ¬ (StorageTOTPExportRunE (List.range 10) (fun _ => none)
      = .ok (List.range 10, ((List.range 10).length + 10 - 1) / 10)) := by
  have h := paginatedFetchAll_spec (List.range 10) 10 tenPos (fun _ => none)
    (fun _ => rfl) 0
  simp only [StorageTOTPExportRunE]
  rw [h]
  simp only [Except.ok.injEq, Prod.mk.injEq, not_and]
  intro _
  decide

/-- C3 amended: when every fetch succeeds, each pagination loop (page size
L, zero-based pages, stopping at the first fetch that returns fewer than
L records) emits every backend record exactly once in backend order and
performs exactly ⌊M/L⌋ + 1 fetches (= ⌈M/L⌉ when L does not divide M,
one more when L divides M, counting the terminating short fetch,
including M = 0 where the single empty fetch terminates the loop); both
the TOTP export and the WebAuthn all-users listing do so with L = 10,
except that the WebAuthn listing over an empty collection returns the
no-devices error after its first, empty fetch. -/
theorem paginated_export_fetches {α : Type} (db : List α) (limit : Nat)
    (hl : 0 < limit) (fetchErr : Nat → Option String)
    (hfe : ∀ p, fetchErr p = none) :
    paginatedFetchAll db limit hl fetchErr 0
      = .ok (db, db.length / limit + 1) ∧
    StorageTOTPExportRunE db fetchErr = .ok (db, db.length / 10 + 1) ∧
    (db ≠ [] → StorageWebauthnListAllRunE db fetchErr
      = .ok (db, db.length / 10 + 1)) ∧
    (db = [] → StorageWebauthnListAllRunE db fetchErr
      = .error "no webauthn devices in database") := by
  have hgen : ∀ l : Nat, ∀ hpos : 0 < l,
      paginatedFetchAll db l hpos fetchErr 0 = .ok (db, db.length / l + 1) := by
    intro l hpos
    have h := paginatedFetchAll_spec db l hpos fetchErr hfe 0
    simpa using h
  refine ⟨hgen limit hl, hgen 10 tenPos, ?_, ?_⟩
  · intro hne
    have hlen : ¬ (fetchPage db 10 0).length = 0 := by
      simp only [fetchPage, List.length_take, List.length_drop]
      have : 0 < db.length := List.length_pos.mpr hne
      omega
    simp only [StorageWebauthnListAllRunE, hfe, if_neg hlen]
    exact hgen 10 tenPos
  · intro hnil
    subst hnil
    simp [StorageWebauthnListAllRunE, hfe, fetchPage]

/-- C3 amended witness: 25 records and page size 10 give three fetches in
both exports; the empty TOTP export still performs its single fetch. -/
theorem paginated_export_fetches_witness :
    paginatedFetchAll (List.range 25) 10 tenPos (fun _ => none) 0
      = .ok (List.range 25, 3) ∧
    StorageTOTPExportRunE (List.range 25) (fun _ => none)
      = .ok (List.range 25, 3) ∧
    StorageWebauthnListAllRunE (List.range 25) (fun _ => none)
      = .ok (List.range 25, 3) ∧
    StorageTOTPExportRunE ([] : List Nat) (fun _ => none) = .ok ([], 1) := by
  have h := paginated_export_fetches (List.range 25) 10 tenPos (fun _ => none)
    (fun _ => rfl)
  have h25 : (List.range 25).length / 10 + 1 = 3 := by decide
  rw [h25] at h
  have he := paginated_export_fetches ([] : List Nat) 10 tenPos (fun _ => none)
    (fun _ => rfl)
  exact ⟨h.1, h.2.1, h.2.2.1 (by decide), by simpa using he.2.1⟩

end Authelia
